import Mathlib

/-!
Verification development for the RSICheck indicator / signal engine.

The Python modules `rsi_calculator.py` and `signal_generator.py` are shallowly
embedded here.  Pandas DataFrames become lists of rows with explicit
column-presence flags; float NaN is represented by `Option.none` in a value
position; all arithmetic is carried out in `ℚ`.  IEEE behaviour of the two
divisions in `calculate_rsi` (x/0 = ±inf, 0/0 = NaN) is encoded explicitly at
the single place it can occur, and Python's `max(0, x)` / `min(c, x)` with a
possibly-NaN `x` (which keep the first argument when the comparison with NaN is
false) is encoded in the strength helpers.
-/

namespace RSICheck

/-- Trend label returned by `detect_trend` ('uptrend' / 'downtrend' / 'neutral'). -/
inductive Trend where
  | uptrend
  | downtrend
  | neutral
  deriving DecidableEq, Repr

/-- Result of `detect_rsi_reversal` ('up' / 'down' / 'none'). -/
inductive Reversal where
  | up
  | down
  | none
  deriving DecidableEq, Repr

/-- Result of `detect_rsi_divergence` ('bullish' / 'bearish' / 'none'). -/
inductive Divergence where
  | bullish
  | bearish
  | none
  deriving DecidableEq, Repr

/-- Signal type constants of `SignalGenerator` (STRONG_BUY .. STRONG_SELL). -/
inductive SignalType where
  | strongBuy
  | buy
  | hold
  | sell
  | strongSell
  deriving DecidableEq, Repr

/-- The trend suffix appended to the default Hold description (lines 193-197). -/
inductive TrendText where
  | none
  | up
  | strongUp
  | down
  | strongDown
  deriving DecidableEq, Repr

/-- Which description string `generate_signal` builds, with the numeric payloads
that are interpolated into it (a payload `Option.none` is a NaN, which Python
would render as "nan"). -/
inductive Desc where
  | insufficientData
  | rsiUnavailable
  | strongBuyDiv (s m l : Option ℚ)
  | strongBuyPlain (s m l : Option ℚ)
  | buyDiv (s m : Option ℚ)
  | buyPlain (s m : Option ℚ)
  | uptrendGuardSell (s : Option ℚ)
  | uptrendGuardHold (s : Option ℚ)
  | strongSellDiv (s m l : Option ℚ)
  | strongSellPlain (s m l : Option ℚ)
  | sellDiv (s m : Option ℚ)
  | sellPlain (s m : Option ℚ)
  | holdDefault (s m l : Option ℚ) (t : TrendText)
  deriving DecidableEq, Repr

/-- The (signal, description, strength) triple returned by `generate_signal`. -/
structure Signal where
  type : SignalType
  desc : Desc
  strength : ℚ
  deriving DecidableEq, Repr

/-- One row of the DataFrame: the Close price plus the derived columns.
`Option.none` in a derived cell is a NaN. -/
structure Row where
  close : ℚ
  rsiShort : Option ℚ := Option.none
  rsiMedium : Option ℚ := Option.none
  rsiLong : Option ℚ := Option.none
  ma20 : Option ℚ := Option.none
  ma50 : Option ℚ := Option.none
  deriving DecidableEq, Repr

/-- A DataFrame with a Close column: the rows plus flags recording which derived
columns are present (`'RSI_Short' in data.columns` etc.). -/
structure DataFrame where
  rows : List Row
  hasRsiShort : Bool := false
  hasRsiMedium : Bool := false
  hasRsiLong : Bool := false
  hasMa20 : Bool := false
  hasMa50 : Bool := false
  deriving DecidableEq, Repr

/-- Configuration of `RSICalculator.__init__` (short/medium/long RSI periods). -/
structure RSICalculator where
  short_period : ℕ := 9
  medium_period : ℕ := 14
  long_period : ℕ := 26
  deriving DecidableEq, Repr

/-- The default `RSICalculator()` (periods 9, 14, 26). -/
def defaultCalculator : RSICalculator := {}

/-- Name of an RSI column ('RSI_Short' / 'RSI_Medium' / 'RSI_Long'). -/
inductive RsiCol where
  | short
  | medium
  | long
  deriving DecidableEq, Repr

/-- Column access `data[rsi_column]`: `Option.none` when the column is absent. -/
def getCol (df : DataFrame) : RsiCol → Option (List (Option ℚ))
  | .short => if df.hasRsiShort then some (df.rows.map (fun r => r.rsiShort)) else Option.none
  | .medium => if df.hasRsiMedium then some (df.rows.map (fun r => r.rsiMedium)) else Option.none
  | .long => if df.hasRsiLong then some (df.rows.map (fun r => r.rsiLong)) else Option.none

/-- Extract all values of a window; `Option.none` when the window has a NaN
(the `np.any(np.isnan(...))` guard). -/
def allVals : List (Option ℚ) → Option (List ℚ)
  | [] => some []
  | Option.none :: _ => Option.none
  | some v :: rest => (allVals rest).map (fun vs => v :: vs)

/-- All adjacent pairs satisfy `a_i >= a_(i+1)`. -/
def chainGe : List ℚ → Bool
  | a :: b :: rest => decide (b ≤ a) && chainGe (b :: rest)
  | _ => true

/-- All adjacent pairs satisfy `a_i <= a_(i+1)`. -/
def chainLe : List ℚ → Bool
  | a :: b :: rest => decide (a ≤ b) && chainLe (b :: rest)
  | _ => true

/-- All adjacent pairs satisfy `a_i < a_(i+1)` (strict rise). -/
def chainLt : List ℚ → Bool
  | a :: b :: rest => decide (a < b) && chainLt (b :: rest)
  | _ => true

/-- All adjacent pairs satisfy `a_i > a_(i+1)` (strict fall). -/
def chainGt : List ℚ → Bool
  | a :: b :: rest => decide (b < a) && chainGt (b :: rest)
  | _ => true

/-- The last two elements `(l[-2], l[-1])` of a list, when it has at least two. -/
def last2 : List ℚ → Option (ℚ × ℚ)
  | [x, y] => some (x, y)
  | _ :: x :: rest => last2 (x :: rest)
  | _ => Option.none

/-- The `ewm(span, adjust=False)` recursion continued from a previous smoothed value. -/
def emaFrom (alpha prev : ℚ) : List ℚ → List ℚ
  | [] => []
  | x :: xs =>
    let y := (1 - alpha) * prev + alpha * x
    y :: emaFrom alpha y xs

/-- Embedding of `Series.ewm(span=·, adjust=False).mean()`: seeded by the first raw value. -/
def emaAdjFalse (alpha : ℚ) : List ℚ → List ℚ
  | [] => []
  | x :: xs => x :: emaFrom alpha x xs

/-- Positive parts of `Close.diff()`: `delta.where(delta > 0, 0.0)`.
The first bar has no delta (NaN); `where` replaces it by 0. -/
def gainsFrom (prev : ℚ) : List ℚ → List ℚ
  | [] => []
  | x :: xs => (if prev < x then x - prev else 0) :: gainsFrom x xs

/-- The `gain` series of `calculate_rsi`. -/
def gains : List ℚ → List ℚ
  | [] => []
  | x :: xs => 0 :: gainsFrom x xs

/-- Negated negative parts of `Close.diff()`: `-delta.where(delta < 0, 0.0)`. -/
def lossesFrom (prev : ℚ) : List ℚ → List ℚ
  | [] => []
  | x :: xs => (if x < prev then prev - x else 0) :: lossesFrom x xs

/-- The `loss` series of `calculate_rsi`. -/
def losses : List ℚ → List ℚ
  | [] => []
  | x :: xs => 0 :: lossesFrom x xs

/-- Embedding of `avg_gain = gain.ewm(span=period, adjust=False).mean()`. -/
def avg_gain (close : List ℚ) (period : ℕ) : List ℚ :=
  emaAdjFalse (2 / ((period : ℚ) + 1)) (gains close)

/-- Embedding of `avg_loss = loss.ewm(span=period, adjust=False).mean()`. -/
def avg_loss (close : List ℚ) (period : ℕ) : List ℚ :=
  emaAdjFalse (2 / ((period : ℚ) + 1)) (losses close)

/-- One point of `rsi = 100 - 100/(1 + avg_gain/avg_loss)`, with the IEEE
semantics of the float divisions made explicit: `avg_loss = 0` with
`avg_gain > 0` gives RS = +inf hence RSI = 100, while `0/0` gives NaN which
propagates to a NaN RSI.  Both averages are nonnegative, so no other special
values can arise. -/
def rsiPoint (g l : ℚ) : Option ℚ :=
  if l = 0 then (if g = 0 then Option.none else some 100)
  else some (100 - 100 / (1 + g / l))

/-- Embedding of `RSICalculator.calculate_rsi` (lines 29-60) on the Close column. -/
def calculate_rsi (close : List ℚ) (period : ℕ) : List (Option ℚ) :=
  List.zipWith rsiPoint (avg_gain close period) (avg_loss close period)

/-- Write the three freshly computed RSI columns into the rows
(`result['RSI_Short'] = ...` etc.). -/
def setRsi : List Row → List (Option ℚ) → List (Option ℚ) → List (Option ℚ) → List Row
  | r :: rs, a :: as', b :: bs, c :: cs =>
    { r with rsiShort := a, rsiMedium := b, rsiLong := c } :: setRsi rs as' bs cs
  | rs, _, _, _ => rs

/-- Embedding of `RSICalculator.calculate_all_rsi` (lines 62-79). -/
def calculate_all_rsi (c : RSICalculator) (df : DataFrame) : DataFrame :=
  let closes := df.rows.map (fun r => r.close)
  { df with
    rows := setRsi df.rows (calculate_rsi closes c.short_period)
      (calculate_rsi closes c.medium_period) (calculate_rsi closes c.long_period)
    hasRsiShort := true, hasRsiMedium := true, hasRsiLong := true }

/-- Embedding of `RSICalculator.get_latest_rsi_values` (lines 81-98).  The outer `Option` is
the Python `None` (empty frame or absent column); the inner one is a NaN value. -/
def get_latest_rsi_values (df : DataFrame) :
    Option (Option ℚ) × Option (Option ℚ) × Option (Option ℚ) :=
  match df.rows.getLast? with
  | Option.none => (Option.none, Option.none, Option.none)
  | some r =>
    (if df.hasRsiShort then some r.rsiShort else Option.none,
     if df.hasRsiMedium then some r.rsiMedium else Option.none,
     if df.hasRsiLong then some r.rsiLong else Option.none)

/-- Classification of the extracted window in `detect_rsi_reversal`
(lines 120-130).  `vs.dropLast` holds exactly the pairs indexed by
`range(len(recent_values) - 2)`. -/
def reversalOf (vs : List ℚ) : Reversal :=
  match last2 vs with
  | Option.none => Reversal.none
  | some (prev, fin) =>
    if fin > prev && chainGe vs.dropLast then Reversal.up
    else if fin < prev && chainLe vs.dropLast then Reversal.down
    else Reversal.none

/-- Embedding of `RSICalculator.detect_rsi_reversal` (lines 100-130). -/
def detect_rsi_reversal (df : DataFrame) (col : RsiCol) (lookback : ℕ) : Reversal :=
  match getCol df col with
  | Option.none => Reversal.none
  | some l =>
    if df.rows.length < lookback + 1 then Reversal.none
    else
      let recent := l.drop (l.length - (lookback + 1))
      match allVals recent with
      | Option.none => Reversal.none
      | some vs => reversalOf vs

/-- Embedding of `RSICalculator.is_rsi_rising` (lines 132-153). -/
def is_rsi_rising (df : DataFrame) (col : RsiCol) (lookback : ℕ) : Bool :=
  match getCol df col with
  | Option.none => false
  | some l =>
    if df.rows.length < lookback + 1 then false
    else
      match allVals (l.drop (l.length - (lookback + 1))) with
      | Option.none => false
      | some vs => chainLt vs

/-- Embedding of `RSICalculator.is_rsi_falling` (lines 155-176). -/
def is_rsi_falling (df : DataFrame) (col : RsiCol) (lookback : ℕ) : Bool :=
  match getCol df col with
  | Option.none => false
  | some l =>
    if df.rows.length < lookback + 1 then false
    else
      match allVals (l.drop (l.length - (lookback + 1))) with
      | Option.none => false
      | some vs => chainGt vs

/-- Embedding of `Series.rolling(window=period).mean()` on the Close column: defined from
index `period-1` on, NaN before. -/
def rollingMean (period : ℕ) (l : List ℚ) : List (Option ℚ) :=
  (List.range l.length).map (fun i =>
    if period ≤ i + 1 then some ((((l.take (i + 1)).drop (i + 1 - period)).sum) / (period : ℚ))
    else Option.none)

/-- Write freshly computed MA_20 / MA_50 columns into the rows. -/
def setMa : List Row → List (Option ℚ) → List (Option ℚ) → List Row
  | r :: rs, a :: as', b :: bs => { r with ma20 := a, ma50 := b } :: setMa rs as' bs
  | rs, _, _ => rs

/-- Embedding of `RSICalculator.calculate_multiple_moving_averages` (lines 194-207):
MA_20 and MA_50, both computed from the original Close column. -/
def calculate_multiple_moving_averages (df : DataFrame) : DataFrame :=
  let closes := df.rows.map (fun r => r.close)
  { df with
    rows := setMa df.rows (rollingMean 20 closes) (rollingMean 50 closes)
    hasMa20 := true, hasMa50 := true }

/-- The `if 'MA_20' not in data.columns or 'MA_50' not in data.columns` fill
step shared by `detect_trend`, `is_trend_strong` and `generate_signal`. -/
def trendFrame (df : DataFrame) : DataFrame :=
  if df.hasMa20 && df.hasMa50 then df else calculate_multiple_moving_averages df

/-- Embedding of `RSICalculator.detect_trend` (lines 209-242). -/
def detect_trend (df : DataFrame) : Trend :=
  if df.rows.length < 50 then Trend.neutral
  else
    match (trendFrame df).rows.getLast? with
    | Option.none => Trend.neutral
    | some r =>
      match r.ma20, r.ma50 with
      | some a, some b =>
        if r.close > a && a > b then Trend.uptrend
        else if r.close < a && a < b then Trend.downtrend
        else Trend.neutral
      | _, _ => Trend.neutral

/-- Comparison `(num - den)/den * 100 > thr` on np.float64 values: when `den = 0` the
division yields ±inf or NaN, so the comparison holds exactly when `num > 0`. -/
def pctGt (num den thr : ℚ) : Bool :=
  if den = 0 then decide (0 < num) else decide (num / den * 100 > thr)

/-- Embedding of `RSICalculator.is_trend_strong` (lines 244-282), with the class constants
STRONG_TREND_PRICE_THRESHOLD = 5.0 and STRONG_TREND_MA_THRESHOLD = 3.0. -/
def is_trend_strong (df : DataFrame) (trend : Trend) : Bool :=
  if df.rows.length < 50 then false
  else
    match (trendFrame df).rows.getLast? with
    | Option.none => false
    | some r =>
      match r.ma20, r.ma50 with
      | some a, some b =>
        match trend with
        | Trend.uptrend => pctGt (r.close - a) a 5 && pctGt (a - b) b 3
        | Trend.downtrend => pctGt (a - r.close) a 5 && pctGt (b - a) b 3
        | Trend.neutral => false
      | _, _ => false

/-- Embedding of `RSICalculator.detect_rsi_divergence` (lines 284-336).  The Close column
exists and is NaN-free by construction of the model, so the price NaN guard is
vacuous.  An empty half would make Python's `np.min` raise; that can only
happen for `lookback <= 1` (never used by the program, which passes 14), and
the model returns 'none' there. -/
def detect_rsi_divergence (df : DataFrame) (col : RsiCol) (lookback : ℕ) : Divergence :=
  if df.rows.length < lookback + 1 then Divergence.none
  else
    match getCol df col with
    | Option.none => Divergence.none
    | some l =>
      let prices := (df.rows.drop (df.rows.length - (lookback + 1))).map (fun r => r.close)
      match allVals (l.drop (l.length - (lookback + 1))) with
      | Option.none => Divergence.none
      | some vs =>
        let priceChange := prices.getLastD 0 - prices.headD 0
        let rsiChange := vs.getLastD 0 - vs.headD 0
        let k := lookback / 2
        if priceChange < 0 ∧ rsiChange > 0 then
          match (prices.take k).min?, (prices.drop k).min?, (vs.take k).min?, (vs.drop k).min? with
          | some p1, some p2, some r1, some r2 =>
            if p2 < p1 ∧ r2 > r1 then Divergence.bullish else Divergence.none
          | _, _, _, _ => Divergence.none
        else if priceChange > 0 ∧ rsiChange < 0 then
          match (prices.take k).max?, (prices.drop k).max?, (vs.take k).max?, (vs.drop k).max? with
          | some q1, some q2, some s1, some s2 =>
            if q2 > q1 ∧ s2 < s1 then Divergence.bearish else Divergence.none
          | _, _, _, _ => Divergence.none
        else Divergence.none

/-! ## SignalGenerator (`signal_generator.py`) -/

/-- Class constant DEFAULT_BUY_THRESHOLD = 30. -/
def DEFAULT_BUY_THRESHOLD : ℚ := 30

/-- Class constant DEFAULT_SELL_THRESHOLD = 70. -/
def DEFAULT_SELL_THRESHOLD : ℚ := 70

/-- Class constant UPTREND_SELL_THRESHOLD = 75. -/
def UPTREND_SELL_THRESHOLD : ℚ := 75

/-- Class constant STRONG_UPTREND_SELL_THRESHOLD = 80. -/
def STRONG_UPTREND_SELL_THRESHOLD : ℚ := 80

/-- Class constant STRONG_UPTREND_SELL_OFFSET = 5. -/
def STRONG_UPTREND_SELL_OFFSET : ℚ := 5

/-- Class constant DOWNTREND_BUY_THRESHOLD = 27. -/
def DOWNTREND_BUY_THRESHOLD : ℚ := 27

/-- Class constant STRONG_DOWNTREND_BUY_THRESHOLD = 25. -/
def STRONG_DOWNTREND_BUY_THRESHOLD : ℚ := 25

/-- Class constant DIVERGENCE_STRENGTH_MULTIPLIER = 1.2. -/
def DIVERGENCE_STRENGTH_MULTIPLIER : ℚ := 12 / 10

/-- Class constant DIVERGENCE_BUY_MULTIPLIER = 1.3. -/
def DIVERGENCE_BUY_MULTIPLIER : ℚ := 13 / 10

/-- Class constant DIVERGENCE_SELL_MULTIPLIER = 1.3. -/
def DIVERGENCE_SELL_MULTIPLIER : ℚ := 13 / 10

/-- The four dynamic thresholds chosen by `generate_signal` (lines 82-107). -/
structure Thresholds where
  sell : ℚ
  strongSell : ℚ
  buy : ℚ
  strongBuy : ℚ
  deriving DecidableEq, Repr

/-- Threshold derivation of `generate_signal` (lines 82-107), verbatim from the
two if/elif/else chains. -/
def deriveThresholds (trend : Trend) (trendStrong : Bool) : Thresholds :=
  let sellPair :=
    if trend = Trend.uptrend ∧ trendStrong then
      (STRONG_UPTREND_SELL_THRESHOLD, STRONG_UPTREND_SELL_THRESHOLD + STRONG_UPTREND_SELL_OFFSET)
    else if trend = Trend.uptrend then (UPTREND_SELL_THRESHOLD, STRONG_UPTREND_SELL_THRESHOLD)
    else (DEFAULT_SELL_THRESHOLD, DEFAULT_SELL_THRESHOLD)
  let buyPair :=
    if trend = Trend.downtrend ∧ trendStrong then
      (STRONG_DOWNTREND_BUY_THRESHOLD, STRONG_DOWNTREND_BUY_THRESHOLD)
    else if trend = Trend.downtrend then (DOWNTREND_BUY_THRESHOLD, DOWNTREND_BUY_THRESHOLD)
    else (DEFAULT_BUY_THRESHOLD, DEFAULT_BUY_THRESHOLD)
  ⟨sellPair.1, sellPair.2, buyPair.1, buyPair.2⟩

/-- Comparison `x <= c` on a possibly-NaN float: false when `x` is NaN. -/
def nLe (x : Option ℚ) (c : ℚ) : Bool :=
  match x with
  | some v => decide (v ≤ c)
  | Option.none => false

/-- Comparison `x >= c` on a possibly-NaN float: false when `x` is NaN. -/
def nGe (x : Option ℚ) (c : ℚ) : Bool :=
  match x with
  | some v => decide (c ≤ v)
  | Option.none => false

/-- Embedding of `SignalGenerator._calculate_buy_strength` (lines 202-220).  A NaN argument
flows through Python's `max(0, nan) = 0` and through the `long_rsi >= 30` guard
(false for NaN), so each NaN term contributes 0. -/
def calculate_buy_strength (s m l : Option ℚ) : ℚ :=
  let shortS := match s with
    | some v => max 0 ((30 - v) / 30 * 50)
    | Option.none => 0
  let mediumS := match m with
    | some v => max 0 ((40 - v) / 40 * 30)
    | Option.none => 0
  let longS := match l with
    | some v => if 30 ≤ v then min 20 ((v - 30) / 20 * 20) else 0
    | Option.none => 0
  min 100 (shortS + mediumS + longS)

/-- Embedding of `SignalGenerator._calculate_sell_strength` (lines 222-240), with the same
`max(0, nan) = 0` convention for NaN terms. -/
def calculate_sell_strength (s m l : Option ℚ) : ℚ :=
  let shortS := match s with
    | some v => max 0 ((v - 70) / 30 * 50)
    | Option.none => 0
  let mediumS := match m with
    | some v => max 0 ((v - 60) / 40 * 30)
    | Option.none => 0
  let longS := match l with
    | some v => max 0 ((v - 70) / 30 * 20)
    | Option.none => 0
  min 100 (shortS + mediumS + longS)

/-- The StrongBuy rule condition (lines 115-117). -/
def strongBuyCond (s m l : Option ℚ) (th : Thresholds) (rev : Reversal) (mRising : Bool) : Bool :=
  nLe s th.strongBuy && decide (rev = Reversal.up) && nGe m th.strongBuy && nLe m 50 &&
    mRising && nGe l 50

/-- The Buy rule condition (line 131). -/
def buyCond (s m : Option ℚ) (th : Thresholds) : Bool :=
  nLe s th.buy && nLe m 40

/-- The StrongSell rule condition (lines 163-165). -/
def strongSellCond (s m l : Option ℚ) (th : Thresholds) (rev : Reversal) (mFalling : Bool) : Bool :=
  nGe s th.strongSell && decide (rev = Reversal.down) && nGe m th.sell && mFalling &&
    nGe l th.sell

/-- The Sell rule condition (line 179). -/
def sellCond (s m : Option ℚ) (th : Thresholds) : Bool :=
  nGe s th.sell && nGe m 60

/-- The trend label appended to the default Hold description (lines 193-197). -/
def trendText : Trend → Bool → TrendText
  | Trend.uptrend, false => TrendText.up
  | Trend.uptrend, true => TrendText.strongUp
  | Trend.downtrend, false => TrendText.down
  | Trend.downtrend, true => TrendText.strongDown
  | Trend.neutral, _ => TrendText.none

/-- The StrongSell / Sell / default-Hold tail of `generate_signal`
(lines 159-200), reached after the buy rules and the strong-uptrend guard. -/
def afterGuardSignal (s m l : Option ℚ) (th : Thresholds) (div : Divergence) (rev : Reversal)
    (mFalling : Bool) (trend : Trend) (trendStrong : Bool) : Signal :=
  if strongSellCond s m l th rev mFalling then
    if div = Divergence.bearish then
      ⟨SignalType.strongSell, Desc.strongSellDiv s m l,
        min 100 (calculate_sell_strength s m l * DIVERGENCE_STRENGTH_MULTIPLIER)⟩
    else ⟨SignalType.strongSell, Desc.strongSellPlain s m l, calculate_sell_strength s m l⟩
  else if sellCond s m th then
    if div = Divergence.bearish then
      ⟨SignalType.sell, Desc.sellDiv s m,
        min 100 (calculate_sell_strength s m l * (7 / 10) * DIVERGENCE_SELL_MULTIPLIER)⟩
    else ⟨SignalType.sell, Desc.sellPlain s m, calculate_sell_strength s m l * (7 / 10)⟩
  else ⟨SignalType.hold, Desc.holdDefault s m l (trendText trend trendStrong), 0⟩

/-- The rule cascade of `generate_signal` (lines 82-200), taking the already
extracted features.  The strong-uptrend guard (lines 147-157) sits between the
buy rules and the sell rules and falls through to the tail when neither of its
two inner conditions holds. -/
def generateSignalCore (s m l : Option ℚ) (trend : Trend) (trendStrong : Bool)
    (div : Divergence) (rev : Reversal) (mRising mFalling : Bool) : Signal :=
  if strongBuyCond s m l (deriveThresholds trend trendStrong) rev mRising then
    if div = Divergence.bullish then
      ⟨SignalType.strongBuy, Desc.strongBuyDiv s m l,
        min 100 (calculate_buy_strength s m l * DIVERGENCE_STRENGTH_MULTIPLIER)⟩
    else ⟨SignalType.strongBuy, Desc.strongBuyPlain s m l, calculate_buy_strength s m l⟩
  else if buyCond s m (deriveThresholds trend trendStrong) then
    if div = Divergence.bullish then
      ⟨SignalType.buy, Desc.buyDiv s m,
        min 100 (calculate_buy_strength s m l * (7 / 10) * DIVERGENCE_BUY_MULTIPLIER)⟩
    else ⟨SignalType.buy, Desc.buyPlain s m, calculate_buy_strength s m l * (7 / 10)⟩
  else if trend = Trend.uptrend ∧ trendStrong then
    if nGe s 85 && decide (rev = Reversal.down) then
      ⟨SignalType.sell, Desc.uptrendGuardSell s, calculate_sell_strength s m l * (8 / 10)⟩
    else if nGe s (deriveThresholds trend trendStrong).sell then
      ⟨SignalType.hold, Desc.uptrendGuardHold s, 0⟩
    else afterGuardSignal s m l (deriveThresholds trend trendStrong) div rev mFalling
      trend trendStrong
  else afterGuardSignal s m l (deriveThresholds trend trendStrong) div rev mFalling
    trend trendStrong

/-- Embedding of `SignalGenerator.generate_signal` (lines 42-200).  The computed
`rsi_slope` and `short_rising` features are never read by the cascade and are
omitted.  The configured RSI periods play no role here: the function only reads
the already-present RSI columns and the fixed-period MA columns. -/
def generate_signal (df : DataFrame) : Signal :=
  if df.rows.length < 3 then ⟨SignalType.hold, Desc.insufficientData, 0⟩
  else
    match (get_latest_rsi_values (trendFrame df)).1, (get_latest_rsi_values (trendFrame df)).2.1,
      (get_latest_rsi_values (trendFrame df)).2.2 with
    | some s, some m, some l =>
      generateSignalCore s m l (detect_trend (trendFrame df))
        (is_trend_strong (trendFrame df) (detect_trend (trendFrame df)))
        (detect_rsi_divergence (trendFrame df) RsiCol.medium 14)
        (detect_rsi_reversal (trendFrame df) RsiCol.short 2)
        (is_rsi_rising (trendFrame df) RsiCol.medium 2)
        (is_rsi_falling (trendFrame df) RsiCol.medium 2)
    | _, _, _ => ⟨SignalType.hold, Desc.rsiUnavailable, 0⟩

/-- How a latest-RSI value is rendered in the batch summary
(`f"{x:.1f}" if x else "N/A"`): Python truthiness sends `None` and `0.0` to
"N/A", while NaN is truthy and formats as the text "nan"; any other value is
formatted to one decimal place. -/
inductive Cell where
  | na
  | nanText
  | oneDec (q : ℚ)
  deriving DecidableEq, Repr

/-- The summary cell for one latest-RSI value (lines 287-289). -/
def fmtCell : Option (Option ℚ) → Cell
  | Option.none => Cell.na
  | some Option.none => Cell.nanText
  | some (some q) => if q = 0 then Cell.na else Cell.oneDec q

/-- One row of the `get_all_signals` summary table.  `strength` carries the
rational rendered by `f"{strength:.1f}"`. -/
structure SummaryRow where
  symbol : String
  signal : SignalType
  shortCell : Cell
  mediumCell : Cell
  longCell : Cell
  strength : ℚ
  desc : Desc
  deriving DecidableEq, Repr

/-- The loop body of `get_all_signals` for one symbol with usable data. -/
def summaryRow (c : RSICalculator) (symbol : String) (df : DataFrame) : SummaryRow :=
  let dataWithRsi := calculate_all_rsi c df
  let sig := generate_signal dataWithRsi
  let latest := get_latest_rsi_values dataWithRsi
  ⟨symbol, sig.type, fmtCell latest.1, fmtCell latest.2.1, fmtCell latest.2.2,
    sig.strength, sig.desc⟩

/-- Embedding of `SignalGenerator.get_all_signals` (lines 261-294): symbols whose data is
`None` or empty are skipped (`if data is not None and not data.empty`). -/
def get_all_signals (c : RSICalculator) (all_data : List (String × Option DataFrame)) :
    List SummaryRow :=
  all_data.filterMap (fun p =>
    match p.2 with
    | Option.none => Option.none
    | some df => if df.rows.isEmpty then Option.none else some (summaryRow c p.1 df))

/-! ## Concrete frames used in witnesses and counterexamples -/

/-- A bar carrying only a Close price, as delivered by the data provider. -/
def rawRow (c : ℚ) : Row := { close := c }

/-- A raw price series: Close column only, no derived columns. -/
def rawFrame (cs : List ℚ) : DataFrame := { rows := cs.map rawRow }

/-- Flat three-bar series [10, 10, 10]. -/
def flatFrame : DataFrame := rawFrame [10, 10, 10]

/-- The flat series with its RSI columns computed by the default calculator. -/
def flatRsiFrame : DataFrame := calculate_all_rsi defaultCalculator flatFrame

/-- Strictly decreasing three-bar series [30, 20, 10]. -/
def decFrame : DataFrame := rawFrame [30, 20, 10]

/-- A bar carrying a Close price and a short-RSI value. -/
def shortRsiRow (v : ℚ) : Row := { close := 0, rsiShort := some v }

/-- Frame whose RSI_Short column reads [50, 40, 30, 35]. -/
def reversalFrame : DataFrame :=
  { rows := [shortRsiRow 50, shortRsiRow 40, shortRsiRow 30, shortRsiRow 35]
    hasRsiShort := true }

/-- A bar carrying a Close price and a medium-RSI value. -/
def divRow (c v : ℚ) : Row := { close := c, rsiMedium := some v }

/-- A 15-bar window with a lower price low and a higher RSI low in the second
half, price falling and RSI rising overall. -/
def divergenceFrame : DataFrame :=
  { rows := List.zipWith divRow
      [100, 98, 96, 94, 92, 90, 88, 86, 84, 80, 85, 86, 87, 88, 89]
      [30, 29, 28, 27, 26, 25, 24, 35, 36, 34, 37, 38, 39, 40, 41]
    hasRsiMedium := true }

/-- Batch input with a missing series, a strictly decreasing series and a flat
series. -/
def batchInput : List (String × Option DataFrame) :=
  [("A", Option.none), ("B", some decFrame), ("C", some flatFrame)]

/-- A bar whose long RSI is NaN while short (25) and medium (35) are defined. -/
def longNanRow : Row := { close := 10, rsiShort := some 25, rsiMedium := some 35 }

/-- Three-bar frame with all RSI columns present but every long-RSI value NaN:
the Buy rule reads only the short and medium RSI, so the NaN sails through. -/
def longNanFrame : DataFrame :=
  { rows := [longNanRow, longNanRow, longNanRow]
    hasRsiShort := true, hasRsiMedium := true, hasRsiLong := true }

/-! ## Helper lemmas -/

/-- When any component of the latest-RSI triple is a Python `None`, the
classifier answers Hold / "RSI unavailable" / 0. -/
lemma generate_signal_unavailable (df : DataFrame) (h3 : 3 ≤ df.rows.length)
    (h : (get_latest_rsi_values (trendFrame df)).1 = Option.none ∨
      (get_latest_rsi_values (trendFrame df)).2.1 = Option.none ∨
      (get_latest_rsi_values (trendFrame df)).2.2 = Option.none) :
    generate_signal df = ⟨SignalType.hold, Desc.rsiUnavailable, 0⟩ := by
  unfold generate_signal
  rw [if_neg (by omega)]
  rcases hg : get_latest_rsi_values (trendFrame df) with ⟨a, b, c⟩
  rw [hg] at h
  simp only [hg]
  rcases a with _ | sa <;> rcases b with _ | sb <;> rcases c with _ | sc <;> simp_all

/-- A NaN short RSI fails every comparison, so the cascade falls through to the
default Hold with strength 0. -/
lemma core_nan_short (m l : Option ℚ) (trend : Trend) (trendStrong : Bool)
    (div : Divergence) (rev : Reversal) (mRising mFalling : Bool) :
    generateSignalCore Option.none m l trend trendStrong div rev mRising mFalling =
      ⟨SignalType.hold, Desc.holdDefault Option.none m l (trendText trend trendStrong), 0⟩ := by
  unfold generateSignalCore afterGuardSignal
  simp only [strongBuyCond, buyCond, strongSellCond, sellCond, nLe, nGe, Bool.false_and,
    Bool.and_self, if_false, Bool.false_eq_true]
  split_ifs <;> rfl

/-- Writing the MA columns touches only the MA cells of each row. -/
lemma setMa_map_rsi (rs : List Row) (as' bs : List (Option ℚ)) :
    (setMa rs as' bs).map (fun r => (r.rsiShort, r.rsiMedium, r.rsiLong)) =
      rs.map (fun r => (r.rsiShort, r.rsiMedium, r.rsiLong)) := by
  induction rs generalizing as' bs with
  | nil => cases as' <;> cases bs <;> rfl
  | cons r rs ih =>
    cases as' with
    | nil => rfl
    | cons a as2 =>
      cases bs with
      | nil => rfl
      | cons b bs2 => simp [setMa, ih]

/-- Taking `getLast?` commutes with `map`. -/
lemma getLast?_map_eq {α β : Type} (f : α → β) (l : List α) :
    (l.map f).getLast? = (l.getLast?).map f := by
  induction l with
  | nil => rfl
  | cons a l ih =>
    cases l with
    | nil => rfl
    | cons b t => simpa [List.getLast?_cons_cons] using ih

/-- The MA fill step keeps the RSI column-presence flags. -/
lemma trendFrame_flags (df : DataFrame) :
    (trendFrame df).hasRsiShort = df.hasRsiShort ∧
    (trendFrame df).hasRsiMedium = df.hasRsiMedium ∧
    (trendFrame df).hasRsiLong = df.hasRsiLong := by
  unfold trendFrame calculate_multiple_moving_averages
  split_ifs <;> exact ⟨rfl, rfl, rfl⟩

/-- The MA fill step keeps the RSI cells of the last row. -/
lemma trendFrame_last_rsi (df : DataFrame) :
    ((trendFrame df).rows.getLast?).map (fun r => (r.rsiShort, r.rsiMedium, r.rsiLong)) =
      (df.rows.getLast?).map (fun r => (r.rsiShort, r.rsiMedium, r.rsiLong)) := by
  unfold trendFrame calculate_multiple_moving_averages
  split_ifs
  · rfl
  · rw [← getLast?_map_eq, setMa_map_rsi, getLast?_map_eq]

/-- Monotonicity of `nGe`: failing the 80 test implies failing the 85 test. -/
lemma nGe_85_of_80 (s : Option ℚ) (h : nGe s 80 = false) : nGe s 85 = false := by
  cases s with
  | none => rfl
  | some v =>
    simp only [nGe, decide_eq_false_iff_not, not_le] at h ⊢
    linarith

/-- Buy strength is nonnegative. -/
lemma buy_strength_nonneg (s m l : Option ℚ) : 0 ≤ calculate_buy_strength s m l := by
  unfold calculate_buy_strength
  refine le_min (by norm_num) (add_nonneg (add_nonneg ?_ ?_) ?_)
  · cases s with
    | none => exact le_rfl
    | some v => exact le_max_left 0 _
  · cases m with
    | none => exact le_rfl
    | some v => exact le_max_left 0 _
  · cases l with
    | none => exact le_rfl
    | some v =>
      dsimp only
      split_ifs with h
      · refine le_min (by norm_num) ?_
        have hv : (v - 30) / 20 * 20 = v - 30 := by ring
        rw [hv]
        linarith
      · exact le_rfl

/-- Buy strength is capped at 100. -/
lemma buy_strength_le (s m l : Option ℚ) : calculate_buy_strength s m l ≤ 100 := by
  unfold calculate_buy_strength
  exact min_le_left _ _

/-- Sell strength is nonnegative. -/
lemma sell_strength_nonneg (s m l : Option ℚ) : 0 ≤ calculate_sell_strength s m l := by
  unfold calculate_sell_strength
  refine le_min (by norm_num) (add_nonneg (add_nonneg ?_ ?_) ?_) <;>
    first
      | (cases s with
          | none => exact le_rfl
          | some v => exact le_max_left 0 _)
      | (cases m with
          | none => exact le_rfl
          | some v => exact le_max_left 0 _)
      | (cases l with
          | none => exact le_rfl
          | some v => exact le_max_left 0 _)

/-- Sell strength is capped at 100. -/
lemma sell_strength_le (s m l : Option ℚ) : calculate_sell_strength s m l ≤ 100 := by
  unfold calculate_sell_strength
  exact min_le_left _ _

/-- The divergence re-cap keeps a nonnegative value nonnegative. -/
lemma cap_nonneg (x k : ℚ) (hx : 0 ≤ x) (hk : 0 ≤ k) : 0 ≤ min 100 (x * k) :=
  le_min (by norm_num) (mul_nonneg hx hk)

/-- The strength of every signal produced by the sell-side tail lies in [0, 100]. -/
lemma afterGuard_strength_bounds (s m l : Option ℚ) (th : Thresholds) (div : Divergence)
    (rev : Reversal) (mFalling : Bool) (trend : Trend) (trendStrong : Bool) :
    0 ≤ (afterGuardSignal s m l th div rev mFalling trend trendStrong).strength ∧
      (afterGuardSignal s m l th div rev mFalling trend trendStrong).strength ≤ 100 := by
  have hs1 := sell_strength_nonneg s m l
  have hs2 := sell_strength_le s m l
  unfold afterGuardSignal
  split_ifs with h1 h2 h3 h4
  · exact ⟨cap_nonneg _ _ hs1 (by norm_num [DIVERGENCE_STRENGTH_MULTIPLIER]),
      min_le_left _ _⟩
  · exact ⟨hs1, hs2⟩
  · exact ⟨cap_nonneg _ _ (mul_nonneg hs1 (by norm_num))
      (by norm_num [DIVERGENCE_SELL_MULTIPLIER]), min_le_left _ _⟩
  · exact ⟨mul_nonneg hs1 (by norm_num), by linarith⟩
  · exact ⟨le_refl 0, by norm_num⟩

/-- The strength of every signal produced by the rule cascade lies in [0, 100]. -/
lemma core_strength_bounds (s m l : Option ℚ) (trend : Trend) (trendStrong : Bool)
    (div : Divergence) (rev : Reversal) (mRising mFalling : Bool) :
    0 ≤ (generateSignalCore s m l trend trendStrong div rev mRising mFalling).strength ∧
      (generateSignalCore s m l trend trendStrong div rev mRising mFalling).strength ≤ 100 := by
  have hb1 := buy_strength_nonneg s m l
  have hb2 := buy_strength_le s m l
  have hs1 := sell_strength_nonneg s m l
  have hs2 := sell_strength_le s m l
  have hA := afterGuard_strength_bounds s m l (deriveThresholds trend trendStrong) div rev
    mFalling trend trendStrong
  unfold generateSignalCore
  split_ifs with h1 h2 h3 h4 h5 h6 h7
  · exact ⟨cap_nonneg _ _ hb1 (by norm_num [DIVERGENCE_STRENGTH_MULTIPLIER]),
      min_le_left _ _⟩
  · exact ⟨hb1, hb2⟩
  · exact ⟨cap_nonneg _ _ (mul_nonneg hb1 (by norm_num))
      (by norm_num [DIVERGENCE_BUY_MULTIPLIER]), min_le_left _ _⟩
  · exact ⟨mul_nonneg hb1 (by norm_num), by linarith⟩
  · exact ⟨mul_nonneg hs1 (by norm_num), by linarith⟩
  · exact ⟨le_refl 0, by norm_num⟩
  · exact hA
  · exact hA

/-- Evaluation of the thresholds in a strong uptrend. -/
lemma th_up_strong : deriveThresholds Trend.uptrend true = ⟨80, 85, 30, 30⟩ := by
  have h : deriveThresholds Trend.uptrend true = ⟨80, 80 + 5, 30, 30⟩ := rfl
  rw [h]
  norm_num

/-- Evaluation of the thresholds in a plain uptrend. -/
lemma th_up : deriveThresholds Trend.uptrend false = ⟨75, 80, 30, 30⟩ := rfl

/-- Evaluation of the thresholds in a strong downtrend. -/
lemma th_down_strong : deriveThresholds Trend.downtrend true = ⟨70, 70, 25, 25⟩ := rfl

/-- Evaluation of the thresholds in a plain downtrend. -/
lemma th_down : deriveThresholds Trend.downtrend false = ⟨70, 70, 27, 27⟩ := rfl

/-- Evaluation of the thresholds in a strong-qualified neutral context. -/
lemma th_neutral_strong : deriveThresholds Trend.neutral true = ⟨70, 70, 30, 30⟩ := rfl

/-- Evaluation of the thresholds in a neutral context. -/
lemma th_neutral : deriveThresholds Trend.neutral false = ⟨70, 70, 30, 30⟩ := rfl

/-! ## Claim theorems -/

/-- Claim C1, counterexample: in a strong downtrend the code sets
`buy_threshold` to STRONG_DOWNTREND_BUY_THRESHOLD = 25, not 27 as the claim's
table states; concretely, with short RSI 26 and medium RSI 35 (which the
claimed threshold 27 would turn into a Buy) the cascade returns Hold. -/
theorem c1_thresholds_counterexample :
    (deriveThresholds Trend.downtrend true).buy = 25 ∧ ((25 : ℚ) ≠ 27) ∧
    generateSignalCore (some 26) (some 35) (some 50) Trend.downtrend true Divergence.none
        Reversal.none false false =
      ⟨SignalType.hold, Desc.holdDefault (some 26) (some 35) (some 50) TrendText.strongDown,
        0⟩ := by
  refine ⟨by rw [th_down_strong], by norm_num, ?_⟩
  norm_num [generateSignalCore, afterGuardSignal, th_down_strong, strongBuyCond, buyCond,
    strongSellCond, sellCond, nLe, nGe, trendText]

/-- Claim C1, amended: the thresholds derived by `generate_signal` are 80/85
(sell/strong-sell) with 30/30 (buy/strong-buy) in a strong uptrend, 75/80 and
30/30 in a plain uptrend, 70/70 and 25/25 in a strong downtrend, 70/70 and
27/27 in a plain downtrend, and 70/70 and 30/30 otherwise. -/
theorem c1_thresholds_amended :
    deriveThresholds Trend.uptrend true = ⟨80, 85, 30, 30⟩ ∧
    deriveThresholds Trend.uptrend false = ⟨75, 80, 30, 30⟩ ∧
    deriveThresholds Trend.downtrend true = ⟨70, 70, 25, 25⟩ ∧
    deriveThresholds Trend.downtrend false = ⟨70, 70, 27, 27⟩ ∧
    deriveThresholds Trend.neutral true = ⟨70, 70, 30, 30⟩ ∧
    deriveThresholds Trend.neutral false = ⟨70, 70, 30, 30⟩ :=
  ⟨th_up_strong, th_up, th_down_strong, th_down, th_neutral_strong, th_neutral⟩

/-- Claim C3, counterexample: on the flat series [10, 10, 10] the smoothed
average loss at index 2 is 0, yet the RSI there is NaN (0/0), not 100. -/
theorem c3_zero_loss_counterexample :
    (avg_loss [10, 10, 10] 14)[2]? = some 0 ∧
    (calculate_rsi [10, 10, 10] 14)[2]? = some Option.none := by
  constructor
  · norm_num [avg_loss, emaAdjFalse, emaFrom, losses, lossesFrom]
  · norm_num [calculate_rsi, avg_loss, avg_gain, emaAdjFalse, emaFrom, losses, lossesFrom,
      gains, gainsFrom, rsiPoint]

/-- At an index where the gain average is nonzero and the loss average is zero,
the zipped RSI point is exactly 100. -/
lemma zip_rsiPoint_zero_loss (gs ls : List ℚ) (i : ℕ) (g : ℚ)
    (hg : gs[i]? = some g) (hne : g ≠ 0) (hl : ls[i]? = some 0) :
    (List.zipWith rsiPoint gs ls)[i]? = some (some 100) := by
  induction gs generalizing ls i with
  | nil => simp at hg
  | cons a as ih =>
    cases ls with
    | nil => simp at hl
    | cons b bs =>
      cases i with
      | zero =>
        rw [List.getElem?_cons_zero, Option.some.injEq] at hg hl
        subst hg
        subst hl
        simp [List.zipWith, rsiPoint, hne]
      | succ n =>
        rw [List.getElem?_cons_succ] at hg hl
        simpa [List.zipWith] using ih bs n hg hl

/-- Claim C3, amended: `calculate_rsi` produces RSI = 100 (and no NaN) at every
index where the smoothed average loss is 0 and the smoothed average gain is
nonzero; where both averages are 0 (first bar, flat series) the RSI is NaN. -/
theorem c3_zero_loss_amended (close : List ℚ) (period : ℕ) (i : ℕ) (g : ℚ)
    (hg : (avg_gain close period)[i]? = some g) (hne : g ≠ 0)
    (hl : (avg_loss close period)[i]? = some 0) :
    (calculate_rsi close period)[i]? = some (some 100) := by
  unfold calculate_rsi
  exact zip_rsiPoint_zero_loss _ _ i g hg hne hl

/-- Witness for the amended C3: on the rising series [1, 2] with period 14 the
second bar has average loss 0 and average gain 2/15, and its RSI is 100. -/
theorem c3_zero_loss_amended_witness :
    (calculate_rsi [1, 2] 14)[1]? = some (some 100) :=
  c3_zero_loss_amended [1, 2] 14 1 (2 / 15)
    (by norm_num [avg_gain, emaAdjFalse, emaFrom, gains, gainsFrom]) (by norm_num)
    (by norm_num [avg_loss, emaAdjFalse, emaFrom, losses, lossesFrom])

/-- Claim C6: every signal returned by `generate_signal` carries a strength in
[0, 100], and both strength helpers stay within [0, 100]. -/
theorem c6_strength_in_range :
    (∀ df : DataFrame,
        0 ≤ (generate_signal df).strength ∧ (generate_signal df).strength ≤ 100) ∧
    (∀ s m l : Option ℚ,
        0 ≤ calculate_buy_strength s m l ∧ calculate_buy_strength s m l ≤ 100) ∧
    (∀ s m l : Option ℚ,
        0 ≤ calculate_sell_strength s m l ∧ calculate_sell_strength s m l ≤ 100) := by
  refine ⟨?_, fun s m l => ⟨buy_strength_nonneg s m l, buy_strength_le s m l⟩,
    fun s m l => ⟨sell_strength_nonneg s m l, sell_strength_le s m l⟩⟩
  intro df
  unfold generate_signal
  split_ifs
  · exact ⟨le_refl 0, by norm_num⟩
  · rcases hg : get_latest_rsi_values (trendFrame df) with ⟨a, b, c⟩
    rcases a with _ | s <;> rcases b with _ | m <;> rcases c with _ | l <;>
      simp only [hg] <;>
      first
        | exact ⟨le_refl 0, by norm_num⟩
        | exact core_strength_bounds s m l _ _ _ _ _ _

/-- Claim C10: while the trend is a strong uptrend the cascade can never emit
StrongSell, and the only Sell it can emit is the guard's own
(strength = sell strength x 0.8, description the guard's one). -/
theorem c10_no_strong_sell_in_strong_uptrend (s m l : Option ℚ) (div : Divergence)
    (rev : Reversal) (mRising mFalling : Bool) :
    (generateSignalCore s m l Trend.uptrend true div rev mRising mFalling).type ≠
      SignalType.strongSell ∧
    ((generateSignalCore s m l Trend.uptrend true div rev mRising mFalling).type =
        SignalType.sell →
      generateSignalCore s m l Trend.uptrend true div rev mRising mFalling =
        ⟨SignalType.sell, Desc.uptrendGuardSell s,
          calculate_sell_strength s m l * (8 / 10)⟩) := by
  have hth : deriveThresholds Trend.uptrend true = ⟨80, 85, 30, 30⟩ := th_up_strong
  have htrue : Trend.uptrend = Trend.uptrend ∧ (true : Bool) = true := ⟨rfl, rfl⟩
  unfold generateSignalCore afterGuardSignal
  rw [hth, if_pos htrue]
  dsimp only
  split_ifs with h1 h2 h3 h4 h6 h7 h8 h9 h10 h11
  · exact ⟨fun h => SignalType.noConfusion h, fun h => h.elim⟩
  · exact ⟨fun h => SignalType.noConfusion h, fun h => h.elim⟩
  · exact ⟨fun h => SignalType.noConfusion h, fun h => h.elim⟩
  · exact ⟨fun h => SignalType.noConfusion h, fun h => h.elim⟩
  · exact ⟨fun h => SignalType.noConfusion h, fun _ => rfl⟩
  · exact ⟨fun h => SignalType.noConfusion h, fun h => h.elim⟩
  · -- past the guard `nGe s 85` must fail, so StrongSell cannot fire
    exfalso
    simp only [strongSellCond, Bool.and_eq_true] at h8
    exact h6 (Bool.and_eq_true _ _ |>.mpr ⟨h8.1.1.1.1, h8.1.1.1.2⟩)
  · exfalso
    simp only [strongSellCond, Bool.and_eq_true] at h8
    exact h6 (Bool.and_eq_true _ _ |>.mpr ⟨h8.1.1.1.1, h8.1.1.1.2⟩)
  · -- past the guard `nGe s 80` must fail, so the generic Sell cannot fire
    exfalso
    simp only [sellCond, Bool.and_eq_true] at h10
    exact h7 h10.1
  · exfalso
    simp only [sellCond, Bool.and_eq_true] at h10
    exact h7 h10.1
  · exact ⟨fun h => SignalType.noConfusion h, fun h => h.elim⟩

/-- Witness for C10: with short RSI 90 and a down reversal in a strong uptrend,
the emitted signal is the guard's Sell with strength sell strength x 0.8. -/
theorem c10_no_strong_sell_witness :
    generateSignalCore (some 90) (some 50) (some 50) Trend.uptrend true Divergence.none
        Reversal.down false false =
      ⟨SignalType.sell, Desc.uptrendGuardSell (some 90),
        calculate_sell_strength (some 90) (some 50) (some 50) * (8 / 10)⟩ :=
  (c10_no_strong_sell_in_strong_uptrend (some 90) (some 50) (some 50) Divergence.none
    Reversal.down false false).2 (by
      norm_num [generateSignalCore, afterGuardSignal, th_up_strong, strongBuyCond, buyCond,
        strongSellCond, sellCond, nLe, nGe])

/-- Claim C2: in a strong uptrend, once neither buy rule has fired, the cascade
returns Sell only when short RSI >= 85 with a down reversal (strength = sell
strength x 0.8); otherwise when short RSI >= sell_threshold (80) it returns
Hold with strength 0 and the overbought-but-trend-strong rationale; in
particular short RSI 90 without a down reversal yields that Hold, not Sell. -/
theorem c2_strong_uptrend_guard (s m l : Option ℚ) (div : Divergence) (rev : Reversal)
    (mRising mFalling : Bool)
    (hsb : strongBuyCond s m l (deriveThresholds Trend.uptrend true) rev mRising = false)
    (hb : buyCond s m (deriveThresholds Trend.uptrend true) = false) :
    (nGe s 85 = true → rev = Reversal.down →
      generateSignalCore s m l Trend.uptrend true div rev mRising mFalling =
        ⟨SignalType.sell, Desc.uptrendGuardSell s, calculate_sell_strength s m l * (8 / 10)⟩) ∧
    ((generateSignalCore s m l Trend.uptrend true div rev mRising mFalling).type =
        SignalType.sell → nGe s 85 = true ∧ rev = Reversal.down) ∧
    (¬(nGe s 85 = true ∧ rev = Reversal.down) → nGe s 80 = true →
      generateSignalCore s m l Trend.uptrend true div rev mRising mFalling =
        ⟨SignalType.hold, Desc.uptrendGuardHold s, 0⟩) ∧
    (s = some 90 → rev ≠ Reversal.down →
      generateSignalCore s m l Trend.uptrend true div rev mRising mFalling =
        ⟨SignalType.hold, Desc.uptrendGuardHold s, 0⟩) := by
  have hth := th_up_strong
  have htrue : Trend.uptrend = Trend.uptrend ∧ (true : Bool) = true := ⟨rfl, rfl⟩
  rw [hth] at hsb hb
  unfold generateSignalCore afterGuardSignal
  rw [hth, if_pos htrue, hsb, hb]
  simp only [Bool.false_eq_true, if_false]
  dsimp only
  by_cases h85 : (nGe s 85 && decide (rev = Reversal.down)) = true
  · rw [if_pos h85]
    have hand := (Bool.and_eq_true _ _).mp h85
    have hrevd : rev = Reversal.down := of_decide_eq_true hand.2
    exact ⟨fun _ _ => rfl, fun _ => ⟨hand.1, hrevd⟩,
      fun hn _ => absurd ⟨hand.1, hrevd⟩ hn, fun _ hrev => absurd hrevd hrev⟩
  · rw [if_neg h85]
    have hc1 : ∀ (h1 : nGe s 85 = true), rev = Reversal.down → False := by
      intro h1 h2
      exact h85 ((Bool.and_eq_true _ _).mpr ⟨h1, decide_eq_true h2⟩)
    by_cases h80 : nGe s (80 : ℚ) = true
    · rw [if_pos h80]
      exact ⟨fun h1 h2 => (hc1 h1 h2).elim, fun h => SignalType.noConfusion h,
        fun _ _ => rfl, fun _ _ => rfl⟩
    · rw [if_neg h80]
      have h80f : nGe s (80 : ℚ) = false := by
        revert h80
        cases nGe s (80 : ℚ) <;> simp
      have h85f : nGe s (85 : ℚ) = false := nGe_85_of_80 s h80f
      have hssc : strongSellCond s m l ⟨80, 85, 30, 30⟩ rev mFalling = false := by
        simp [strongSellCond, h85f]
      have hsc : sellCond s m ⟨80, 85, 30, 30⟩ = false := by
        simp [sellCond, h80f]
      rw [hssc, hsc]
      simp only [Bool.false_eq_true, if_false]
      refine ⟨fun h1 h2 => (hc1 h1 h2).elim, fun h => SignalType.noConfusion h,
        fun _ h => absurd h h80, ?_⟩
      intro hs90 _
      apply absurd _ h80
      rw [hs90]
      norm_num [nGe]

/-- Witness for C2: short RSI 90 in a strong uptrend with no down reversal
yields the guard's Hold with strength 0. -/
theorem c2_strong_uptrend_guard_witness :
    generateSignalCore (some 90) (some 50) (some 50) Trend.uptrend true Divergence.none
      Reversal.none false false =
      ⟨SignalType.hold, Desc.uptrendGuardHold (some 90), 0⟩ := by
  have h := c2_strong_uptrend_guard (some 90) (some 50) (some 50) Divergence.none Reversal.none
    false false
    (by norm_num [strongBuyCond, nLe, nGe, th_up_strong])
    (by norm_num [buyCond, nLe, th_up_strong])
  exact h.2.2.2 rfl (fun hx => Reversal.noConfusion hx)

/-- Claim C4, counterexample: on the flat 3-bar series with computed RSI
columns, all three latest RSI values are NaN ("undefined"), yet the result is
the default Hold description reporting the values, not the "RSI unavailable"
or "insufficient data" description.  Type and strength still degrade to
Hold / 0. -/
theorem c4_insufficiency_counterexample :
    get_latest_rsi_values flatRsiFrame =
      (some Option.none, some Option.none, some Option.none) ∧
    generate_signal flatRsiFrame =
      ⟨SignalType.hold, Desc.holdDefault Option.none Option.none Option.none TrendText.none,
        0⟩ ∧
    Desc.holdDefault Option.none Option.none Option.none TrendText.none ≠
      Desc.insufficientData ∧
    Desc.holdDefault Option.none Option.none Option.none TrendText.none ≠
      Desc.rsiUnavailable := by
  refine ⟨?_, ?_, fun h => Desc.noConfusion h, fun h => Desc.noConfusion h⟩
  · norm_num [get_latest_rsi_values, flatRsiFrame, calculate_all_rsi, flatFrame, rawFrame,
      rawRow, setRsi, calculate_rsi, avg_gain, avg_loss, gains, losses, gainsFrom,
      lossesFrom, emaAdjFalse, emaFrom, rsiPoint, defaultCalculator]
  · norm_num [generate_signal, trendFrame, calculate_multiple_moving_averages, setMa,
      rollingMean, get_latest_rsi_values, detect_trend, is_trend_strong, pctGt,
      detect_rsi_divergence, detect_rsi_reversal, reversalOf, last2, chainGe, chainLe,
      chainLt, chainGt, is_rsi_rising, is_rsi_falling, getCol, allVals, generateSignalCore,
      afterGuardSignal, strongBuyCond, buyCond, strongSellCond, sellCond, nLe, nGe,
      deriveThresholds, trendText, calculate_buy_strength, calculate_sell_strength,
      calculate_all_rsi, calculate_rsi, setRsi, avg_gain, avg_loss, gains, losses,
      gainsFrom, lossesFrom, emaAdjFalse, emaFrom, rsiPoint, defaultCalculator, rawRow,
      rawFrame, flatFrame, flatRsiFrame, List.range_succ, DEFAULT_BUY_THRESHOLD,
      DEFAULT_SELL_THRESHOLD]

/-- Claim C4, amended: `generate_signal` never raises; an empty or sub-3-bar
series yields Hold / "insufficient data" / 0; when any of the three RSI columns
is absent (the Python `None` case) it yields Hold / "RSI unavailable" / 0; when
the columns are present but the latest short RSI is NaN, every rule comparison
fails and the result falls through to the default Hold (strength 0) whose
description reports the values; but a NaN confined to the long RSI triggers no
insufficiency handling: with short 25 and medium 35 the Buy rule still fires,
returning Buy with strength 203/24. -/
theorem c4_insufficiency_amended :
    (∀ df : DataFrame, df.rows.length < 3 →
      generate_signal df = ⟨SignalType.hold, Desc.insufficientData, 0⟩) ∧
    (∀ df : DataFrame, 3 ≤ df.rows.length →
      (df.hasRsiShort = false ∨ df.hasRsiMedium = false ∨ df.hasRsiLong = false) →
      generate_signal df = ⟨SignalType.hold, Desc.rsiUnavailable, 0⟩) ∧
    (∀ (df : DataFrame) (r : Row), 3 ≤ df.rows.length →
      df.hasRsiShort = true → df.hasRsiMedium = true → df.hasRsiLong = true →
      df.rows.getLast? = some r → r.rsiShort = Option.none →
      ∃ mv lv tt, generate_signal df = ⟨SignalType.hold,
        Desc.holdDefault Option.none mv lv tt, 0⟩) ∧
    generate_signal longNanFrame =
      ⟨SignalType.buy, Desc.buyPlain (some 25) (some 35), 203 / 24⟩ := by
  refine ⟨?_, ?_, ?_, ?_⟩
  · intro df h
    unfold generate_signal
    rw [if_pos h]
  · intro df h3 hm
    obtain ⟨f1, f2, f3⟩ := trendFrame_flags df
    apply generate_signal_unavailable df h3
    rcases hgl : (trendFrame df).rows.getLast? with _ | r
    · exact Or.inl (by simp [get_latest_rsi_values, hgl])
    · rcases hm with hm | hm | hm
      · exact Or.inl (by simp [get_latest_rsi_values, hgl, f1, hm])
      · exact Or.inr (Or.inl (by simp [get_latest_rsi_values, hgl, f2, hm]))
      · exact Or.inr (Or.inr (by simp [get_latest_rsi_values, hgl, f3, hm]))
  · intro df r h3 hS hM hL hgl hshort
    obtain ⟨f1, f2, f3⟩ := trendFrame_flags df
    have hmap := trendFrame_last_rsi df
    rw [hgl] at hmap
    simp only [Option.map_some', Option.map_eq_some'] at hmap
    obtain ⟨r2, hr2, hproj⟩ := hmap
    have hs2 : r2.rsiShort = Option.none := by
      have := congrArg Prod.fst hproj
      simpa using this.trans hshort
    have hg : get_latest_rsi_values (trendFrame df) =
        (some r2.rsiShort, some r2.rsiMedium, some r2.rsiLong) := by
      simp [get_latest_rsi_values, hr2, f1, f2, f3, hS, hM, hL]
    refine ⟨r2.rsiMedium, r2.rsiLong,
      trendText (detect_trend (trendFrame df))
        (is_trend_strong (trendFrame df) (detect_trend (trendFrame df))), ?_⟩
    unfold generate_signal
    rw [if_neg (by omega), hg]
    dsimp only
    rw [hs2]
    exact core_nan_short _ _ _ _ _ _ _ _
  · norm_num [generate_signal, trendFrame, calculate_multiple_moving_averages, setMa,
      rollingMean, get_latest_rsi_values, detect_trend, is_trend_strong, pctGt,
      detect_rsi_divergence, detect_rsi_reversal, reversalOf, last2, chainGe, chainLe,
      chainLt, chainGt, is_rsi_rising, is_rsi_falling, getCol, allVals, generateSignalCore,
      afterGuardSignal, strongBuyCond, buyCond, strongSellCond, sellCond, nLe, nGe,
      deriveThresholds, trendText, calculate_buy_strength, calculate_sell_strength,
      longNanRow, longNanFrame, List.range_succ, DEFAULT_BUY_THRESHOLD,
      DEFAULT_SELL_THRESHOLD]
    rw [if_neg (fun h => Trend.noConfusion h)]
    rw [if_pos (by norm_num), if_neg (fun h => Divergence.noConfusion h)]

/-- Witness for the amended C4: the flat 3-bar pipeline frame lands in the
NaN fall-through case. -/
theorem c4_insufficiency_amended_witness :
    ∃ mv lv tt, generate_signal flatRsiFrame =
      ⟨SignalType.hold, Desc.holdDefault Option.none mv lv tt, 0⟩ :=
  c4_insufficiency_amended.2.2.1 flatRsiFrame
    { close := 10, rsiShort := Option.none, rsiMedium := Option.none,
      rsiLong := Option.none, ma20 := Option.none, ma50 := Option.none }
    (by norm_num [flatRsiFrame, calculate_all_rsi, flatFrame, rawFrame, rawRow, setRsi])
    rfl rfl rfl
    (by norm_num [flatRsiFrame, calculate_all_rsi, flatFrame, rawFrame, rawRow, setRsi,
      calculate_rsi, avg_gain, avg_loss, gains, losses, gainsFrom, lossesFrom, emaAdjFalse,
      emaFrom, rsiPoint, defaultCalculator])
    rfl

/-- Claim C5: `detect_trend` returns uptrend exactly when the frame has at
least 50 bars and the latest close, MA_20, MA_50 (reading the stored columns,
or computing them when absent) satisfy close > MA_20 > MA_50; downtrend for the
symmetric chain; and neutral whenever there are fewer than 50 bars, an MA is
undefined, or neither chain holds. -/
theorem c5_detect_trend (df : DataFrame) :
    (detect_trend df = Trend.uptrend ↔
      50 ≤ df.rows.length ∧ ∃ r a b, (trendFrame df).rows.getLast? = some r ∧
        r.ma20 = some a ∧ r.ma50 = some b ∧ a < r.close ∧ b < a) ∧
    (detect_trend df = Trend.downtrend ↔
      50 ≤ df.rows.length ∧ ∃ r a b, (trendFrame df).rows.getLast? = some r ∧
        r.ma20 = some a ∧ r.ma50 = some b ∧ r.close < a ∧ a < b) ∧
    (df.rows.length < 50 → detect_trend df = Trend.neutral) ∧
    (∀ r, (trendFrame df).rows.getLast? = some r →
      r.ma20 = Option.none ∨ r.ma50 = Option.none → detect_trend df = Trend.neutral) ∧
    (detect_trend df ≠ Trend.uptrend → detect_trend df ≠ Trend.downtrend →
      detect_trend df = Trend.neutral) := by
  unfold detect_trend
  by_cases hlen : df.rows.length < 50
  · rw [if_pos hlen]
    exact ⟨⟨fun h => Trend.noConfusion h, fun hr => absurd hr.1 (by omega)⟩,
      ⟨fun h => Trend.noConfusion h, fun hr => absurd hr.1 (by omega)⟩,
      fun _ => rfl, fun _ _ _ => rfl, fun _ _ => rfl⟩
  · rw [if_neg hlen]
    have h50 : 50 ≤ df.rows.length := not_lt.mp hlen
    rcases hgl : (trendFrame df).rows.getLast? with _ | r
    · simp [hgl]
    · dsimp only
      rcases hma : r.ma20 with _ | a <;> rcases hmb : r.ma50 with _ | b
      · simp [hma]
      · simp [hma]
      · simp [hmb]
      · dsimp only
        split_ifs with hup hdown
        · simp only [Bool.and_eq_true, decide_eq_true_eq] at hup
          refine ⟨⟨fun _ => ⟨h50, r, a, b, rfl, hma, hmb, hup.1, hup.2⟩, fun _ => rfl⟩,
            ⟨False.elim, ?_⟩, fun h => absurd h hlen, fun r2 hr2 hor => ?_,
            fun h _ => absurd rfl h⟩
          · rintro ⟨-, r2, a2, b2, hr2, h20, h50b, hlt1, hlt2⟩
            obtain rfl : r = r2 := Option.some.inj hr2
            rw [hma] at h20
            rw [hmb] at h50b
            obtain rfl : a = a2 := Option.some.inj h20
            obtain rfl : b = b2 := Option.some.inj h50b
            exact absurd hup.1 (by linarith)
          · obtain rfl : r = r2 := Option.some.inj hr2
            rcases hor with h | h
            · rw [hma] at h
              exact Option.noConfusion h
            · rw [hmb] at h
              exact Option.noConfusion h
        · simp only [Bool.and_eq_true, decide_eq_true_eq, not_and_or, not_lt] at hup
          simp only [Bool.and_eq_true, decide_eq_true_eq] at hdown
          refine ⟨⟨False.elim, ?_⟩,
            ⟨fun _ => ⟨h50, r, a, b, rfl, hma, hmb, hdown.1, hdown.2⟩, fun _ => rfl⟩,
            fun h => absurd h hlen, fun r2 hr2 hor => ?_, fun _ h => absurd rfl h⟩
          · rintro ⟨-, r2, a2, b2, hr2, h20, h50b, hlt1, hlt2⟩
            obtain rfl : r = r2 := Option.some.inj hr2
            rw [hma] at h20
            rw [hmb] at h50b
            obtain rfl : a = a2 := Option.some.inj h20
            obtain rfl : b = b2 := Option.some.inj h50b
            exact absurd hdown.1 (by linarith)
          · obtain rfl : r = r2 := Option.some.inj hr2
            rcases hor with h | h
            · rw [hma] at h
              exact Option.noConfusion h
            · rw [hmb] at h
              exact Option.noConfusion h
        · simp only [Bool.and_eq_true, decide_eq_true_eq, not_and_or, not_lt] at hup hdown
          refine ⟨⟨False.elim, ?_⟩, ⟨False.elim, ?_⟩, fun _ => rfl, fun _ _ _ => rfl,
            fun _ _ => rfl⟩
          · rintro ⟨-, r2, a2, b2, hr2, h20, h50b, hlt1, hlt2⟩
            obtain rfl : r = r2 := Option.some.inj hr2
            rw [hma] at h20
            rw [hmb] at h50b
            obtain rfl : a = a2 := Option.some.inj h20
            obtain rfl : b = b2 := Option.some.inj h50b
            rcases hup with h | h <;> linarith
          · rintro ⟨-, r2, a2, b2, hr2, h20, h50b, hlt1, hlt2⟩
            obtain rfl : r = r2 := Option.some.inj hr2
            rw [hma] at h20
            rw [hmb] at h50b
            obtain rfl : a = a2 := Option.some.inj h20
            obtain rfl : b = b2 := Option.some.inj h50b
            rcases hdown with h | h <;> linarith

/-- Witness for C5: the empty series yields neutral. -/
theorem c5_detect_trend_witness : detect_trend (rawFrame []) = Trend.neutral :=
  (c5_detect_trend (rawFrame [])).2.2.1 (by norm_num [rawFrame])

/-- Claim C7: with lookback 2, `detect_rsi_reversal` inspects the last three
column values [a, b, c]; on a NaN-free window it returns up iff c > b with
a >= b, down iff c < b with a <= b, none otherwise; fewer than 3 rows or a NaN
in the window give none; and on the column [50, 40, 30, 35] it returns up. -/
theorem c7_reversal_lookback2 :
    (∀ (df : DataFrame) (col : RsiCol) (colL : List (Option ℚ)) (a b c : ℚ),
      getCol df col = some colL → 3 ≤ df.rows.length →
      colL.drop (colL.length - 3) = [some a, some b, some c] →
      detect_rsi_reversal df col 2 =
        (if b < c ∧ b ≤ a then Reversal.up
         else if c < b ∧ a ≤ b then Reversal.down
         else Reversal.none)) ∧
    (∀ (df : DataFrame) (col : RsiCol), df.rows.length < 3 →
      detect_rsi_reversal df col 2 = Reversal.none) ∧
    (∀ (df : DataFrame) (col : RsiCol) (colL : List (Option ℚ)),
      getCol df col = some colL → allVals (colL.drop (colL.length - 3)) = Option.none →
      detect_rsi_reversal df col 2 = Reversal.none) ∧
    detect_rsi_reversal reversalFrame RsiCol.short 2 = Reversal.up := by
  refine ⟨?_, ?_, ?_, ?_⟩
  · intro df col colL a b c hcol hlen hwin
    unfold detect_rsi_reversal
    simp only [hcol]
    rw [if_neg (by omega)]
    simp only [hwin, allVals, reversalOf, last2, List.dropLast, chainGe, chainLe,
      Option.map_some']
    simp only [Bool.and_true, Bool.and_eq_true, decide_eq_true_eq, gt_iff_lt]
  · intro df col hlen
    unfold detect_rsi_reversal
    rcases hc : getCol df col with _ | l
    · rfl
    · simp only [hc]
      rw [if_pos (by omega)]
  · intro df col colL hcol hnan
    unfold detect_rsi_reversal
    simp only [hcol]
    by_cases hl : df.rows.length < 2 + 1
    · rw [if_pos hl]
    · rw [if_neg hl]
      simp only [hnan]
  · norm_num [detect_rsi_reversal, reversalFrame, shortRsiRow, getCol, allVals, reversalOf,
      last2, List.dropLast, chainGe, chainLe]

/-- Witness for C7: the general window rule applied to [50, 40, 30, 35]. -/
theorem c7_reversal_lookback2_witness :
    detect_rsi_reversal reversalFrame RsiCol.short 2 = Reversal.up := by
  have h := c7_reversal_lookback2.1 reversalFrame RsiCol.short
    [some 50, some 40, some 30, some 35] 40 30 35
    (by norm_num [getCol, reversalFrame, shortRsiRow]) (by norm_num [reversalFrame])
    (by norm_num)
  rw [h]
  norm_num

/-- Claim C8: on a NaN-free window of lookback+1 bars (with both halves
nonempty, as witnessed by the minima/maxima below), `detect_rsi_divergence`
returns bullish iff the overall price change is negative, the overall RSI
change is positive, the second half's minimum price is below the first half's,
and the second half's minimum RSI is above the first half's; bearish
symmetrically with maxima and opposite signs; and otherwise none. -/
theorem c8_divergence (df : DataFrame) (col : RsiCol) (lookback : ℕ)
    (colL : List (Option ℚ)) (vs prices : List ℚ) (p1 p2 r1 r2 q1 q2 s1 s2 : ℚ)
    (hlen : lookback + 1 ≤ df.rows.length)
    (hcol : getCol df col = some colL)
    (hps : prices = (df.rows.drop (df.rows.length - (lookback + 1))).map (fun r => r.close))
    (hvals : allVals (colL.drop (colL.length - (lookback + 1))) = some vs)
    (hp1 : (prices.take (lookback / 2)).min? = some p1)
    (hp2 : (prices.drop (lookback / 2)).min? = some p2)
    (hr1 : (vs.take (lookback / 2)).min? = some r1)
    (hr2 : (vs.drop (lookback / 2)).min? = some r2)
    (hq1 : (prices.take (lookback / 2)).max? = some q1)
    (hq2 : (prices.drop (lookback / 2)).max? = some q2)
    (hs1 : (vs.take (lookback / 2)).max? = some s1)
    (hs2 : (vs.drop (lookback / 2)).max? = some s2) :
    (detect_rsi_divergence df col lookback = Divergence.bullish ↔
      prices.getLastD 0 - prices.headD 0 < 0 ∧ 0 < vs.getLastD 0 - vs.headD 0 ∧
        p2 < p1 ∧ r1 < r2) ∧
    (detect_rsi_divergence df col lookback = Divergence.bearish ↔
      0 < prices.getLastD 0 - prices.headD 0 ∧ vs.getLastD 0 - vs.headD 0 < 0 ∧
        q1 < q2 ∧ s2 < s1) ∧
    (detect_rsi_divergence df col lookback = Divergence.bullish ∨
      detect_rsi_divergence df col lookback = Divergence.bearish ∨
      detect_rsi_divergence df col lookback = Divergence.none) := by
  subst hps
  unfold detect_rsi_divergence
  rw [if_neg (by omega)]
  simp only [hcol]
  rw [hvals]
  dsimp only
  rw [hp1, hp2, hr1, hr2, hq1, hq2, hs1, hs2]
  dsimp only
  split_ifs with hA hB hC hD
  · exact ⟨iff_of_true rfl ⟨hA.1, hA.2, hB.1, hB.2⟩,
      iff_of_false not_false
        (fun h => by linarith [hA.1, h.1]),
      Or.inl rfl⟩
  · exact ⟨iff_of_false not_false
        (fun h => hB ⟨h.2.2.1, h.2.2.2⟩),
      iff_of_false not_false
        (fun h => by linarith [hA.1, h.1]),
      Or.inr (Or.inr rfl)⟩
  · exact ⟨iff_of_false not_false
        (fun h => by linarith [hC.1, h.1]),
      iff_of_true rfl ⟨hC.1, hC.2, hD.1, hD.2⟩,
      Or.inr (Or.inl rfl)⟩
  · exact ⟨iff_of_false not_false
        (fun h => by linarith [hC.1, h.1]),
      iff_of_false not_false
        (fun h => hD ⟨h.2.2.1, h.2.2.2⟩),
      Or.inr (Or.inr rfl)⟩
  · exact ⟨iff_of_false not_false
        (fun h => hA ⟨h.1, h.2.1⟩),
      iff_of_false not_false
        (fun h => hC ⟨h.1, h.2.1⟩),
      Or.inr (Or.inr rfl)⟩

/-- Witness for C8: the spec's constructed 15-bar window (lower price low,
higher RSI low, price falling, RSI rising) is classified bullish. -/
theorem c8_divergence_witness :
    detect_rsi_divergence divergenceFrame RsiCol.medium 14 = Divergence.bullish := by
  have h := c8_divergence divergenceFrame RsiCol.medium 14
    [some 30, some 29, some 28, some 27, some 26, some 25, some 24, some 35, some 36,
      some 34, some 37, some 38, some 39, some 40, some 41]
    [30, 29, 28, 27, 26, 25, 24, 35, 36, 34, 37, 38, 39, 40, 41]
    [100, 98, 96, 94, 92, 90, 88, 86, 84, 80, 85, 86, 87, 88, 89]
    88 80 24 34 100 89 30 41
    (by norm_num [divergenceFrame, divRow])
    (by norm_num [getCol, divergenceFrame, divRow])
    (by norm_num [divergenceFrame, divRow])
    (by norm_num [allVals])
    (by norm_num [List.min?, min_def]) (by norm_num [List.min?, min_def])
    (by norm_num [List.min?, min_def]) (by norm_num [List.min?, min_def])
    (by norm_num [List.max?, max_def]) (by norm_num [List.max?, max_def])
    (by norm_num [List.max?, max_def]) (by norm_num [List.max?, max_def])
  exact h.1.mpr (by norm_num [List.getLastD, List.headD])

/-- Claim C9, counterexample: on a batch with a missing series A, the strictly
decreasing series B (latest RSI exactly 0.0, a defined value) and the flat
series C (latest RSI NaN), `get_all_signals` emits only two rows, renders B's
defined 0.0 as "N/A" (Python truthiness) and renders C's NaN as the text
"nan", not "N/A". -/
theorem c9_summary_counterexample :
    batchInput.length = 3 ∧
    (get_all_signals defaultCalculator batchInput).map (fun row => row.symbol) =
      ["B", "C"] ∧
    (get_all_signals defaultCalculator batchInput).map (fun row => row.shortCell) =
      [Cell.na, Cell.nanText] ∧
    get_latest_rsi_values (calculate_all_rsi defaultCalculator decFrame) =
      (some (some 0), some (some 0), some (some 0)) := by
  refine ⟨rfl, ?_, ?_, ?_⟩
  · norm_num [get_all_signals, batchInput, summaryRow, decFrame, flatFrame, rawFrame,
      rawRow, List.filterMap_cons, List.cons_ne_nil]
  · norm_num [get_all_signals, batchInput, summaryRow, decFrame, flatFrame, rawFrame,
      rawRow, List.filterMap_cons, List.cons_ne_nil, fmtCell, get_latest_rsi_values,
      calculate_all_rsi,
      setRsi, calculate_rsi,
      avg_gain, avg_loss, gains, losses, gainsFrom, lossesFrom, emaAdjFalse, emaFrom,
      rsiPoint, defaultCalculator]
  · norm_num [get_latest_rsi_values, calculate_all_rsi, decFrame, rawFrame, rawRow,
      setRsi, calculate_rsi, avg_gain, avg_loss, gains, losses, gainsFrom, lossesFrom,
      emaAdjFalse, emaFrom, rsiPoint, defaultCalculator]

/-- Claim C9, amended: `get_all_signals` emits one row per symbol whose series
is present and non-empty, in the input's iteration order; a latest-RSI cell
shows "N/A" exactly when the value is Python-falsy (None or exactly 0.0), the
text "nan" exactly when the latest value is NaN, and the one-decimal rendering
otherwise; the row's strength is the classifier's strength, rendered to one
decimal. -/
theorem c9_summary_amended :
    (∀ (c : RSICalculator) (input : List (String × Option DataFrame)),
      (get_all_signals c input).map (fun row => row.symbol) =
        (input.filter (fun p => match p.2 with
          | some df => !df.rows.isEmpty
          | Option.none => false)).map (fun p => p.1)) ∧
    (∀ x : Option (Option ℚ),
      (fmtCell x = Cell.na ↔ x = Option.none ∨ x = some (some 0)) ∧
      (fmtCell x = Cell.nanText ↔ x = some Option.none)) ∧
    (∀ (c : RSICalculator) (symbol : String) (df : DataFrame),
      (summaryRow c symbol df).strength =
        (generate_signal (calculate_all_rsi c df)).strength) := by
  refine ⟨?_, ?_, fun c symbol df => rfl⟩
  · intro c input
    induction input with
    | nil => rfl
    | cons p rest ih =>
      rcases p with ⟨sym, _ | df⟩
      · simpa [get_all_signals, List.filterMap_cons, List.filter_cons] using ih
      · by_cases he : df.rows = [] <;>
          simpa [get_all_signals, List.filterMap_cons, List.filter_cons, he,
            List.isEmpty_eq_true, List.isEmpty_eq_false, summaryRow] using ih
  · intro x
    rcases x with _ | (_ | q)
    · exact ⟨⟨fun _ => Or.inl rfl, fun _ => rfl⟩,
        ⟨fun h => Cell.noConfusion h, fun h => Option.noConfusion h⟩⟩
    · exact ⟨⟨fun h => Cell.noConfusion h, fun h => by
          rcases h with h | h
          · exact Option.noConfusion h
          · exact Option.noConfusion (Option.some.inj h)⟩,
        ⟨fun _ => rfl, fun _ => rfl⟩⟩
    · by_cases hq : q = 0
      · subst hq
        exact ⟨⟨fun _ => Or.inr rfl, fun _ => by norm_num [fmtCell]⟩,
          ⟨fun h => by
              norm_num [fmtCell] at h
              exact Cell.noConfusion h,
            fun h => Option.noConfusion (Option.some.inj h)⟩⟩
      · refine ⟨⟨fun h => ?_, fun h => ?_⟩, ⟨fun h => ?_, fun h => ?_⟩⟩
        · rw [fmtCell, if_neg hq] at h
          exact Cell.noConfusion h
        · rcases h with h | h
          · exact Option.noConfusion h
          · exact absurd (Option.some.inj (Option.some.inj h)) hq
        · rw [fmtCell, if_neg hq] at h
          exact Cell.noConfusion h
        · exact Option.noConfusion (Option.some.inj h)

/-- Witness for the amended C9: the value 0.0 renders as "N/A" and a NaN
renders as the text "nan". -/
theorem c9_summary_amended_witness :
    fmtCell (some (some 0)) = Cell.na ∧ fmtCell (some Option.none) = Cell.nanText :=
  ⟨(c9_summary_amended.2.1 (some (some 0))).1.mpr (Or.inr rfl),
    (c9_summary_amended.2.1 (some Option.none)).2.mpr rfl⟩

end RSICheck
